import Mathlib

/-!
Verification of the RA.Aid core subsystems against their natural-language
specification: the process capture engine (`ra_aid/proc/interactive.py`),
the retry executor and stage orchestration (`ra_aid/__main__.py`), and the
command-style tool wrappers (`ra_aid/tools/{test,lint,ripgrep}.py`).

Byte strings are modelled as `List Nat`; the file system visible to one
capture invocation as a list of paths; provider faults, file contents and
external collaborators (decoder, truncator, `shutil.which`) as explicit
parameters, so that every embedded operation is a total computable function.
-/

namespace RaAid

/-! ### Output sanitization (interactive.py lines 71-73)

The capture engine applies two byte-level regex substitutions:
`re.sub(rb'\x1b\[[0-9;]*[a-zA-Z]', b'', output)` followed by
`re.sub(rb'[\x00-\x08\x0b\x0c\x0e-\x1f]', b'', output)`. -/

/-- Byte class `[0-9;]` — the CSI parameter bytes of the first regex. -/
def isCsiParam (b : Nat) : Bool :=
  (decide (48 ≤ b) && decide (b ≤ 57)) || b == 59

/-- Byte class `[a-zA-Z]` — the final letter of a CSI sequence. -/
def isCsiLetter (b : Nat) : Bool :=
  (decide (65 ≤ b) && decide (b ≤ 90)) || (decide (97 ≤ b) && decide (b ≤ 122))

/-- Byte class `[\x00-\x08\x0b\x0c\x0e-\x1f]` of the second regex:
the control bytes removed, sparing tab 0x09, newline 0x0a and CR 0x0d. -/
def isBadCtl (b : Nat) : Bool :=
  decide (b ≤ 8) || b == 11 || b == 12 || (decide (14 ≤ b) && decide (b ≤ 31))

/-- Attempt to match `\x1b\[[0-9;]*[a-zA-Z]` at the head of `l`;
on success return the remainder after the match.  The parameter class and
the letter class are disjoint, so the greedy `[0-9;]*` followed by one
letter is exactly `dropWhile` and one test. -/
def csiMatch : List Nat → Option (List Nat)
  | 27 :: 91 :: rest =>
    match rest.dropWhile isCsiParam with
    | c :: rem => if isCsiLetter c then some rem else none
    | [] => none
  | _ => none

theorem csiMatch_length {l rem : List Nat} (h : csiMatch l = some rem) :
    rem.length < l.length := by
  match l with
  | [] => simp [csiMatch] at h
  | [b] => simp [csiMatch] at h
  | b :: c :: rest =>
    by_cases hb : b = 27
    · by_cases hc : c = 91
      · subst hb; subst hc
        simp only [csiMatch] at h
        rcases hdw : rest.dropWhile isCsiParam with _ | ⟨d, rem'⟩
        · rw [hdw] at h; simp at h
        · rw [hdw] at h
          have hsub : (d :: rem').length ≤ rest.length := by
            have := (List.dropWhile_sublist (l := rest) isCsiParam).length_le
            rw [hdw] at this; exact this
          by_cases hd : isCsiLetter d
          · simp [hd] at h; subst h
            simp only [List.length_cons] at hsub ⊢
            omega
          · simp [hd] at h
      · have : csiMatch (b :: c :: rest) = none := by
          subst hb
          simp only [csiMatch]
          split
          · rename_i heq
            injection heq with h1 h2
            injection h2 with h3 h4
            exact absurd h3 hc
          · rfl
        rw [this] at h; cases h
    · have : csiMatch (b :: c :: rest) = none := by
        simp only [csiMatch]
        split
        · rename_i heq
          injection heq with h1 h2
          exact absurd h1 hb
        · rfl
      rw [this] at h; cases h

/-- The first substitution of the sanitizer: scan left to right, delete each
leftmost non-overlapping match of `\x1b\[[0-9;]*[a-zA-Z]`, copy every other
byte through (the semantics of `re.sub` with an empty replacement). -/
def stripCsi (l : List Nat) : List Nat :=
  match hm : csiMatch l with
  | some rem => stripCsi rem
  | none =>
    match l with
    | [] => []
    | b :: rest => b :: stripCsi rest
termination_by l.length
decreasing_by
  · exact csiMatch_length hm
  · simp

/-- The second substitution: drop every byte of the listed control ranges. -/
def stripCtl (l : List Nat) : List Nat :=
  l.filter (fun b => ! isBadCtl b)

/-- The full sanitization pipeline applied to the captured bytes
(interactive.py lines 72-73): CSI removal, then control-byte removal. -/
def sanitizeOutput (l : List Nat) : List Nat :=
  stripCtl (stripCsi l)

/-- A complete CSI sequence `ESC [ params letter` as a byte list. -/
def csiSeq (params : List Nat) (c : Nat) : List Nat :=
  27 :: 91 :: (params ++ [c])

theorem stripCsi_of_match {l rem : List Nat} (h : csiMatch l = some rem) :
    stripCsi l = stripCsi rem := by
  rw [stripCsi]
  split
  · rename_i rem' hm
    rw [h] at hm
    injection hm with he
    rw [he]
  · rename_i hm
    rw [h] at hm
    cases hm

theorem stripCsi_nil : stripCsi [] = [] := by
  rw [stripCsi]
  split
  · rename_i rem hm
    simp [csiMatch] at hm
  · rfl

theorem stripCsi_cons_of_none {b : Nat} {rest : List Nat}
    (h : csiMatch (b :: rest) = none) :
    stripCsi (b :: rest) = b :: stripCsi rest := by
  rw [stripCsi]
  split
  · rename_i rem hm
    rw [h] at hm
    cases hm
  · rfl

theorem csiMatch_cons_of_ne {b : Nat} (rest : List Nat) (hb : b ≠ 27) :
    csiMatch (b :: rest) = none := by
  unfold csiMatch
  split
  · rename_i heq
    injection heq with h1 h2
    exact absurd h1 hb
  · rfl

theorem letter_not_param {c : Nat} (hc : isCsiLetter c = true) :
    isCsiParam c = false := by
  have h1 : (48 ≤ c ∧ c ≤ 57) ∨ c = 59 → False := by
    intro h
    have h2 : (65 ≤ c ∧ c ≤ 90) ∨ (97 ≤ c ∧ c ≤ 122) := by
      simpa [isCsiLetter, Bool.or_eq_true, Bool.and_eq_true, decide_eq_true_eq] using hc
    omega
  cases h : isCsiParam c
  · rfl
  · exact absurd (by
      simpa [isCsiParam, Bool.or_eq_true, Bool.and_eq_true, decide_eq_true_eq,
        beq_iff_eq] using h) (fun hh => h1 hh)

theorem csiMatch_csi {params : List Nat} {c : Nat} (ys : List Nat)
    (hp : ∀ b ∈ params, isCsiParam b) (hc : isCsiLetter c = true) :
    csiMatch (27 :: 91 :: (params ++ c :: ys)) = some ys := by
  simp only [csiMatch]
  rw [List.dropWhile_append_of_pos hp]
  rw [List.dropWhile_cons_of_neg (by simp [letter_not_param hc])]
  simp [hc]

theorem stripCsi_csiSeq_append {params : List Nat} {c : Nat} (ys : List Nat)
    (hp : ∀ b ∈ params, isCsiParam b) (hc : isCsiLetter c = true) :
    stripCsi (csiSeq params c ++ ys) = stripCsi ys := by
  have he : csiSeq params c ++ ys = 27 :: 91 :: (params ++ c :: ys) := by
    simp [csiSeq]
  rw [he, stripCsi_of_match (csiMatch_csi ys hp hc)]

theorem stripCsi_append_of_ne {xs : List Nat} (ys : List Nat)
    (h : ∀ b ∈ xs, b ≠ 27) :
    stripCsi (xs ++ ys) = xs ++ stripCsi ys := by
  induction xs with
  | nil => simp [stripCsi_nil]
  | cons b rest ih =>
    rw [List.cons_append,
      stripCsi_cons_of_none (csiMatch_cons_of_ne _ (h b (by simp))),
      ih (fun b' hb' => h b' (by simp [hb']))]
    rfl

theorem stripCsi_of_ne {xs : List Nat} (h : ∀ b ∈ xs, b ≠ 27) :
    stripCsi xs = xs := by
  have := stripCsi_append_of_ne [] h
  simpa [stripCsi_nil] using this

theorem stripCsi_csiSeq {params : List Nat} {c : Nat}
    (hp : ∀ b ∈ params, isCsiParam b) (hc : isCsiLetter c = true) :
    stripCsi (csiSeq params c) = [] := by
  have := stripCsi_csiSeq_append [] hp hc
  simpa [stripCsi_nil] using this

/-! ### The process capture engine (interactive.py, run_interactive_command)

The three ephemeral paths of one invocation (the generated script, the
captured-output file `<script>.out` and the sidecar exit-code file
`<script>.retcode`) are modelled as distinguished path constructors; any
other file on disk is `otherP n`.  Faults at the four fallible steps of the
body (running the `script` utility, reading the output file, sanitizing,
reading the exit-code file) are injected through a `CaptureEnv`. -/

inductive CapPath
  | scriptP
  | outP
  | retP
  | otherP (n : Nat)
deriving DecidableEq, Repr

/-- The file system visible to one invocation: the set of existing paths. -/
abbrev FileSys := List CapPath

def createFile (p : CapPath) (fs : FileSys) : FileSys := p :: fs

/-- `os.path.exists` check followed by `os.remove`, as in the cleanup loop. -/
def removeFile (p : CapPath) (fs : FileSys) : FileSys :=
  if p ∈ fs then fs.filter (fun q => q ≠ p) else fs

/-- The `finally` block (interactive.py lines 97-104): remove the script,
output and retcode paths in that order, each attempt independent. -/
def cleanupTempFiles (fs : FileSys) : FileSys :=
  removeFile CapPath.retP (removeFile CapPath.outP (removeFile CapPath.scriptP fs))

inductive CaptureError
  | invalidArgument (msg : String)
  | commandNotFound (msg : String)
  | captureFault (msg : String)
deriving DecidableEq, Repr

/-- Environment of one capture invocation: the PATH-resolution oracle
(`shutil.which`), and the behaviour of each fallible step of the body. -/
structure CaptureEnv where
  /-- whether `shutil.which` resolves a given executable name -/
  whichOk : String → Bool
  /-- the `os.system` call running the `script` utility raises -/
  utilFault : Bool
  /-- the capture utility wrote the output file -/
  outWritten : Bool
  /-- the generated script reached the `echo $exit_code > retcode` line -/
  retWritten : Bool
  /-- bytes read from the output file; `none` = the read raises -/
  outContent : Option (List Nat)
  /-- the sanitization step raises -/
  sanitizeFault : Bool
  /-- parse of the retcode file content; `none` = non-numeric (`ValueError`) -/
  retContent : Option Int

/-- Result of one capture invocation: the returned value or re-raised
exception, the file system on return, and whether the capture utility
(the external process) was ever started. -/
structure CaptureResult where
  outcome : Except CaptureError (List Nat × Int)
  fs : FileSys
  utilInvoked : Bool
deriving Repr

/-- Shallow embedding of `run_interactive_command` (interactive.py lines
34-106): precondition checks, script-file creation, pty capture, output
read, sanitization, exit-code recovery with default 1, and the `finally`
cleanup on every exit path. -/
def run_interactive_command (cmd : List String) (env : CaptureEnv)
    (fs0 : FileSys) : CaptureResult :=
  match cmd with
  | [] =>
    { outcome := Except.error (CaptureError.invalidArgument "No command provided.")
      fs := fs0
      utilInvoked := false }
  | c0 :: _ =>
    if env.whichOk c0 = false then
      { outcome := Except.error (CaptureError.commandNotFound
          ("Command '" ++ c0 ++ "' not found in PATH."))
        fs := fs0
        utilInvoked := false }
    else
      let fs1 := createFile CapPath.scriptP fs0
      if env.utilFault then
        { outcome := Except.error (CaptureError.captureFault "error running interactive capture")
          fs := cleanupTempFiles fs1
          utilInvoked := true }
      else
        let fs2 := if env.outWritten then createFile CapPath.outP fs1 else fs1
        let fs3 := if env.retWritten then createFile CapPath.retP fs2 else fs2
        match env.outContent with
        | none =>
          { outcome := Except.error (CaptureError.captureFault "failed reading output file")
            fs := cleanupTempFiles fs3
            utilInvoked := true }
        | some raw =>
          if env.sanitizeFault then
            { outcome := Except.error (CaptureError.captureFault "sanitization failure")
              fs := cleanupTempFiles fs3
              utilInvoked := true }
          else
            let return_code : Int :=
              if env.retWritten then
                match env.retContent with
                | some n => n
                | none => 1
              else 1
            { outcome := Except.ok (sanitizeOutput raw, return_code)
              fs := cleanupTempFiles fs3
              utilInvoked := true }

theorem not_mem_removeFile_self (p : CapPath) (fs : FileSys) :
    p ∉ removeFile p fs := by
  unfold removeFile
  split
  · intro hmem
    have := List.of_mem_filter hmem
    simp at this
  · intro hmem
    rename_i hnot
    exact hnot hmem

theorem not_mem_removeFile_of_not_mem {q : CapPath} (p : CapPath)
    {fs : FileSys} (h : q ∉ fs) : q ∉ removeFile p fs := by
  unfold removeFile
  split
  · intro hmem
    exact h (List.mem_of_mem_filter hmem)
  · exact h

theorem cleanupTempFiles_clean (fs : FileSys) :
    CapPath.scriptP ∉ cleanupTempFiles fs
    ∧ CapPath.outP ∉ cleanupTempFiles fs
    ∧ CapPath.retP ∉ cleanupTempFiles fs := by
  unfold cleanupTempFiles
  refine ⟨?_, ?_, ?_⟩
  · exact not_mem_removeFile_of_not_mem _
      (not_mem_removeFile_of_not_mem _ (not_mem_removeFile_self _ _))
  · exact not_mem_removeFile_of_not_mem _ (not_mem_removeFile_self _ _)
  · exact not_mem_removeFile_self _ _

/-! ### The retry executor (__main__.py, run_agent_with_retry, lines 197-218)

One attempt of `agent.stream(...)` either finishes normally, raises one of
the four transient provider errors (`InternalServerError`, `APITimeoutError`,
`RateLimitError`, `APIError`), or raises any other exception.  The agent's
behaviour is a function from the 0-based attempt index to that outcome;
the executor's observable effect is the list of back-off sleeps performed
plus the final result. -/

inductive AgentOutcome
  | ok
  | transientErr (msg : String)
  | otherErr (msg : String)
deriving DecidableEq, Repr

inductive RetryError
  | fatal (msg : String)
  | propagated (msg : String)
deriving DecidableEq, Repr

/-- `max_retries = 20` (__main__.py line 199). -/
def max_retries : Nat := 20

/-- `base_delay = 1` second (__main__.py line 200). -/
def base_delay : Nat := 1

/-- The `for attempt in range(max_retries)` loop, with `remaining` the number
of loop iterations left (`remaining + attempt = max_retries` at the real
entry point).  Returns the sleeps performed (in seconds, in order) and the
final outcome: loop exhaustion or `break` return `ok`; the last-attempt
check raises the fatal `RuntimeError`; a non-transient error propagates. -/
def retryLoop (behavior : Nat → AgentOutcome) :
    Nat → Nat → List Nat × Except RetryError Unit
  | 0, _ => ([], Except.ok ())
  | remaining + 1, attempt =>
    match behavior attempt with
    | AgentOutcome.ok => ([], Except.ok ())
    | AgentOutcome.otherErr msg => ([], Except.error (RetryError.propagated msg))
    | AgentOutcome.transientErr msg =>
      if attempt = max_retries - 1 then
        ([], Except.error (RetryError.fatal
          ("Max retries (" ++ toString max_retries ++ ") exceeded. Last error: " ++ msg)))
      else
        let delay := base_delay * 2 ^ attempt
        let rest := retryLoop behavior remaining (attempt + 1)
        (delay :: rest.1, rest.2)

/-- Shallow embedding of `run_agent_with_retry`. -/
def run_agent_with_retry (behavior : Nat → AgentOutcome) :
    List Nat × Except RetryError Unit :=
  retryLoop behavior max_retries 0

/-! ### The memory store and stage decisions (__main__.py)

The process-wide store `_global_memory` is a string-keyed dictionary; the
orchestration code reads the keys `config` (for the `research_only` flag,
default `False`), `implementation_requested` (default `[]`), `tasks`,
`plan`, `key_facts`, `key_snippets` and the related-files list.  It is
embedded as a structure with one field per key read, defaults built in. -/

structure MemStore where
  research_only : Bool
  implementation_requested : List String
  tasks : List String
  plan : String
  key_facts : String
  key_snippets : String
  related_files : List String
deriving Repr

/-- `is_stage_requested` (__main__.py lines 191-195): only the
`implementation` stage is recognized; it is requested when
`implementation_requested` is non-empty. -/
def is_stage_requested (store : MemStore) (stage : String) : Bool :=
  if stage = "implementation" then
    decide (0 < store.implementation_requested.length)
  else
    false

/-- `is_informational_query` (__main__.py lines 187-189). -/
def is_informational_query (store : MemStore) : Bool :=
  store.research_only || ! is_stage_requested store "implementation"

/-- Modelled from the spec: the implementation prompt template
(`IMPLEMENTATION_PROMPT` of `ra_aid.prompts` is not among the sources).
Per the spec, the rendered prompt carries the plan, the accumulated key
facts and snippets, the related files, the base task, and exactly one task
description; it is modelled as the record of those six components, which
are precisely the six arguments of the `.format(...)` call in
`run_implementation_stage` (__main__.py lines 243-250). -/
structure ImplPrompt where
  plan : String
  key_facts : String
  key_snippets : String
  task : String
  related_files : List String
  base_task : String
deriving DecidableEq, Repr

/-- One implementation-stage agent session: a fresh `MemorySaver` checkpoint
(identified by its position in the run) and the rendered prompt. -/
structure ImplSession where
  checkpointId : Nat
  prompt : ImplPrompt
deriving DecidableEq, Repr

structure ImplStageResult where
  /-- the `Implementation Stage Skipped` header was printed and nothing ran -/
  skipped : Bool
  sessions : List ImplSession
deriving Repr

/-- Shallow embedding of `run_implementation_stage` (__main__.py lines
220-253): gate on `is_stage_requested`, then one fresh checkpoint, agent
and prompt per entry of the store's `tasks` list, in order. -/
def run_implementation_stage (store : MemStore) (base_task : String) :
    ImplStageResult :=
  if is_stage_requested store "implementation" = false then
    { skipped := true, sessions := [] }
  else
    { skipped := false
      sessions := store.tasks.enum.map (fun p =>
        { checkpointId := p.1
          prompt :=
            { plan := store.plan
              key_facts := store.key_facts
              key_snippets := store.key_snippets
              task := p.2
              related_files := store.related_files
              base_task := base_task } }) }

inductive StageTag
  | research
  | planning
  | implementation
deriving DecidableEq, Repr

/-- The stage sequence of `main` (__main__.py lines 418-469): the research
stage always runs; the planning and implementation stages are constructed
and run only when `is_informational_query()` is false. -/
def stagesRun (store : MemStore) : List StageTag :=
  [StageTag.research] ++
    (if is_informational_query store then []
     else [StageTag.planning, StageTag.implementation])

/-! ### Command-style tool wrappers (tools/test.py, tools/lint.py, tools/ripgrep.py)

Each wrapper delegates to the capture engine and returns a dictionary.  The
returned dictionary is embedded as a record whose `success` field is an
`Option Bool`: `some b` when the dictionary carries a `success` key with
value `b`, `none` when the key is absent.  The capture engine's outcome is
a parameter (`Except` of the raised exception's message or of the byte
output and return code), as are the two external collaborators: the UTF-8
decoder (`bytes.decode`) and the truncation helper (`truncate_output`). -/

structure ToolResult where
  output : String
  return_code : Int
  success : Option Bool
deriving DecidableEq, Repr

/-- Shallow embedding of `run_test_command` (test.py lines 44-74): on a
normal capture, decode (empty bytes become `""` without truncation),
truncate, and report `success = (return_code == 0)`; on any exception the
`except` block returns the message with return code 1 and `success` false. -/
def run_test_command (cap : Except String (List Nat × Int))
    (dec : List Nat → String) (trunc : String → String) : ToolResult :=
  match cap with
  | Except.error msg =>
    { output := msg, return_code := 1, success := some false }
  | Except.ok (output, return_code) =>
    { output := if output = [] then "" else trunc (dec output)
      return_code := return_code
      success := some (decide (return_code = 0)) }

/-- Shallow embedding of `run_lint_command` (lint.py lines 68-142).
`command` is the lint command line resolved from `package.json` or the
file-extension table, `none` when neither yields one (the early return). -/
def run_lint_command (command : Option String)
    (cap : Except String (List Nat × Int))
    (dec : List Nat → String) (trunc : String → String) : ToolResult :=
  match command with
  | none =>
    { output := "No package.json lint script found and couldn't determine appropriate linter"
      return_code := 1
      success := some false }
  | some _ =>
    match cap with
    | Except.error msg =>
      { output := msg, return_code := 1, success := some false }
    | Except.ok (output, return_code) =>
      { output := trunc (if output = [] then "" else dec output)
        return_code := return_code
        success := some (decide (return_code = 0)) }

/-- Shallow embedding of `ripgrep_search` (ripgrep.py lines 111-171): the
file-listing capture, the search capture, the result-message assembly for
the match/no-match cases, and the `except` block — which returns only
`output` and `return_code`, hence `success := none` there. -/
def ripgrep_search (pattern : String) (fileType : Option String)
    (filesCap searchCap : Except String (List Nat × Int))
    (dec : List Nat → String) (trunc : String → String) : ToolResult :=
  match filesCap with
  | Except.error msg =>
    { output := msg, return_code := 1, success := none }
  | Except.ok (filesOut, _) =>
    let searchableFiles : List String :=
      if filesOut = [] then [] else ((dec filesOut).trim.splitOn "\n")
    let totalFiles := (searchableFiles.filter (fun f => f ≠ "")).length
    match searchCap with
    | Except.error msg =>
      { output := msg, return_code := 1, success := none }
    | Except.ok (output, return_code) =>
      let decoded := if output = [] then "" else dec output
      let finalOutput :=
        if return_code = 0 then
          let matchCount :=
            ((decoded.splitOn "\n").filter (fun line => line.trim ≠ "")).length
          String.intercalate "\n"
            ["✅ Found Matches!",
             "Found " ++ toString matchCount ++ " match"
               ++ (if matchCount ≠ 1 then "es" else "")
               ++ " in " ++ toString totalFiles ++ " searched files:",
             "",
             decoded]
        else
          let msgs :=
            ["❌ No Matches Found",
             "Searched " ++ toString totalFiles ++ " files for pattern: '"
               ++ pattern ++ "'",
             "",
             (match fileType with
              | some _ => "File types included:"
              | none => "All file types searched")]
          let msgs := msgs ++
            (match fileType with
             | some ft => ["- " ++ ft]
             | none => [])
          let msgs :=
            if 0 < totalFiles then
              msgs ++ ["\nSample of files searched:"]
                ++ ((searchableFiles.take 5).filter (fun f => f ≠ "")).map
                    (fun f => "- " ++ f)
                ++ (if 5 < searchableFiles.length then
                      ["... and " ++ toString (searchableFiles.length - 5)
                        ++ " more files"]
                    else [])
            else
              msgs ++ ["\nNo matching files found to search!"]
          String.intercalate "\n" msgs
      { output := trunc finalOutput
        return_code := return_code
        success := some (decide (return_code = 0)) }

/-! ### CLI validation and process exit codes (__main__.py)

`parse_arguments` (lines 58-121) defaults the model for the `anthropic`
provider and calls `argparse`'s `parser.error` — which terminates the
process with status 2 — when a non-Anthropic provider is chosen without
`--model`, or a non-OpenAI expert provider without `--expert-model`.
`main` then exits 1 from `validate_environment` on missing provider
credentials, exits 1 when `--message` is absent, exits 0 on a completion
signal (`sys.exit(0)` on `TaskCompletedException`) or on a normal return,
and an exception left uncaught (e.g. retry exhaustion's `RuntimeError`)
terminates the interpreter with status 1. -/

def defaultAnthropicModel : String := "claude-3-5-sonnet-20241022"

structure ParsedArgs where
  provider : String
  model : String
  expert_provider : String
  expert_model : Option String
deriving DecidableEq, Repr

/-- Shallow embedding of the validation part of `parse_arguments`
(lines 110-121); `Except.error c` means the process exits with status `c`
(2, from `argparse.ArgumentParser.error`). -/
def parse_arguments (provider : String) (model : Option String)
    (expert_provider : String) (expert_model : Option String) :
    Except Nat ParsedArgs :=
  match
    (if provider = "anthropic" then
      Except.ok (model.getD defaultAnthropicModel)
    else
      match model with
      | none => Except.error 2
      | some m => Except.ok m : Except Nat String)
  with
  | Except.error c => Except.error c
  | Except.ok m =>
    if expert_provider ≠ "openai" ∧ expert_model = none then
      Except.error 2
    else
      Except.ok
        { provider := provider
          model := m
          expert_provider := expert_provider
          expert_model := expert_model }

inductive RunOutcome
  | normal
  | completed
  | fatal (msg : String)
deriving DecidableEq, Repr

/-- The process exit code of `main` (lines 377-476) as a function of the
CLI inputs, the environment-validation result and the pipeline outcome. -/
def main_exit_code (provider : String) (model : Option String)
    (expert_provider : String) (expert_model : Option String)
    (envOk : Bool) (message : Option String) (outcome : RunOutcome) : Nat :=
  match parse_arguments provider model expert_provider expert_model with
  | Except.error c => c
  | Except.ok _ =>
    if envOk = false then 1
    else
      match message with
      | none => 1
      | some _ =>
        match outcome with
        | RunOutcome.completed => 0
        | RunOutcome.normal => 0
        | RunOutcome.fatal _ => 1

/-! ## Claim theorems -/

/-- Claim C6: sanitization removes every ANSI CSI sequence `ESC [ params
letter` and every control byte of 0x00-0x08, 0x0b, 0x0c, 0x0e-0x1f, while
preserving tab, newline, carriage return and printable text unchanged; in
particular, literal text surrounded by CSI color codes sanitizes to exactly
that literal text. -/
theorem C6_sanitize_csi_and_ctl (p1 p2 : List Nat) (c1 c2 : Nat) (xs : List Nat)
    (hp1 : ∀ b ∈ p1, isCsiParam b) (hc1 : isCsiLetter c1 = true)
    (hp2 : ∀ b ∈ p2, isCsiParam b) (hc2 : isCsiLetter c2 = true)
    (hesc : ∀ b ∈ xs, b ≠ 27) :
    sanitizeOutput (csiSeq p1 c1 ++ xs ++ csiSeq p2 c2)
        = xs.filter (fun b => ! isBadCtl b)
    ∧ ((∀ b ∈ xs, isBadCtl b = false) →
        sanitizeOutput (csiSeq p1 c1 ++ xs ++ csiSeq p2 c2) = xs) := by
  have hstrip : stripCsi (csiSeq p1 c1 ++ xs ++ csiSeq p2 c2) = xs := by
    rw [List.append_assoc, stripCsi_csiSeq_append _ hp1 hc1,
      stripCsi_append_of_ne _ hesc, stripCsi_csiSeq hp2 hc2, List.append_nil]
  constructor
  · rw [sanitizeOutput, hstrip]; rfl
  · intro hplain
    rw [sanitizeOutput, hstrip]
    unfold stripCtl
    apply List.filter_eq_self.mpr
    intro a ha
    simp [hplain a ha]

/-- Witness for C6: the bytes of `"\x1b[31mhello\x1b[0m"` sanitize to the
bytes of `"hello"`. -/
theorem C6_witness :
    (∀ b ∈ [51, 49], isCsiParam b = true)
    ∧ isCsiLetter 109 = true
    ∧ (∀ b ∈ [104, 101, 108, 108, 111], b ≠ 27 ∧ isBadCtl b = false)
    ∧ sanitizeOutput
        (csiSeq [51, 49] 109 ++ [104, 101, 108, 108, 111] ++ csiSeq [48] 109)
        = [104, 101, 108, 108, 111] := by
  refine ⟨by decide, by decide, by decide, ?_⟩
  exact (C6_sanitize_csi_and_ctl [51, 49] [48] 109 109 [104, 101, 108, 108, 111]
    (by decide) (by decide) (by decide) (by decide) (by decide)).2 (by decide)

/-- Claim C1: for every capture invocation whose arguments pass the
preconditions, on every exit path — normal return or any injected fault —
none of the three ephemeral files exists on disk when control returns. -/
theorem C1_cleanup_every_exit_path (c0 : String) (rest : List String)
    (env : CaptureEnv) (fs0 : FileSys) (hwhich : env.whichOk c0 = true) :
    CapPath.scriptP ∉ (run_interactive_command (c0 :: rest) env fs0).fs
    ∧ CapPath.outP ∉ (run_interactive_command (c0 :: rest) env fs0).fs
    ∧ CapPath.retP ∉ (run_interactive_command (c0 :: rest) env fs0).fs := by
  have h : ∃ fs', (run_interactive_command (c0 :: rest) env fs0).fs
      = cleanupTempFiles fs' := by
    simp only [run_interactive_command]
    rw [if_neg (by simp [hwhich])]
    split
    · exact ⟨_, rfl⟩
    · split
      · exact ⟨_, rfl⟩
      · split
        · exact ⟨_, rfl⟩
        · exact ⟨_, rfl⟩
  obtain ⟨fs', hfs⟩ := h
  rw [hfs]
  exact cleanupTempFiles_clean fs'

/-- Witness for C1: a concrete passing invocation whose run succeeds. -/
theorem C1_witness :
    (CaptureEnv.mk (fun _ => true) false true true (some [104]) false
        (some 0)).whichOk "sh" = true
    ∧ CapPath.scriptP ∉ (run_interactive_command ["sh"]
        (CaptureEnv.mk (fun _ => true) false true true (some [104]) false
          (some 0)) []).fs
    ∧ CapPath.outP ∉ (run_interactive_command ["sh"]
        (CaptureEnv.mk (fun _ => true) false true true (some [104]) false
          (some 0)) []).fs
    ∧ CapPath.retP ∉ (run_interactive_command ["sh"]
        (CaptureEnv.mk (fun _ => true) false true true (some [104]) false
          (some 0)) []).fs := by
  refine ⟨rfl, ?_⟩
  exact C1_cleanup_every_exit_path "sh" []
    (CaptureEnv.mk (fun _ => true) false true true (some [104]) false (some 0))
    [] rfl

/-- Claim C3: an empty command vector raises the invalid-argument error and a
head not resolving on the search path raises the command-not-found error; in
both cases before any temp file is created or the capture utility is started,
leaving the file system untouched. -/
theorem C3_preconditions_no_side_effects (cmd : List String) (env : CaptureEnv)
    (fs0 : FileSys) :
    (cmd = [] →
      run_interactive_command cmd env fs0 =
        { outcome := Except.error (CaptureError.invalidArgument "No command provided.")
          fs := fs0
          utilInvoked := false })
    ∧ (∀ c0 rest, cmd = c0 :: rest → env.whichOk c0 = false →
        run_interactive_command cmd env fs0 =
          { outcome := Except.error (CaptureError.commandNotFound
              ("Command '" ++ c0 ++ "' not found in PATH."))
            fs := fs0
            utilInvoked := false }) := by
  constructor
  · rintro rfl
    rfl
  · rintro c0 rest rfl hw
    simp only [run_interactive_command]
    rw [if_pos hw]

/-- Witness for C3: the two precondition failures at concrete inputs. -/
theorem C3_witness :
    run_interactive_command []
        (CaptureEnv.mk (fun _ => false) false false false none false none) [] =
      { outcome := Except.error (CaptureError.invalidArgument "No command provided.")
        fs := []
        utilInvoked := false }
    ∧ run_interactive_command ["nosuch"]
        (CaptureEnv.mk (fun _ => false) false false false none false none) [] =
      { outcome := Except.error (CaptureError.commandNotFound
          "Command 'nosuch' not found in PATH.")
        fs := []
        utilInvoked := false } := by
  constructor
  · exact (C3_preconditions_no_side_effects []
      (CaptureEnv.mk (fun _ => false) false false false none false none) []).1 rfl
  · exact (C3_preconditions_no_side_effects ["nosuch"]
      (CaptureEnv.mk (fun _ => false) false false false none false none) []).2
      "nosuch" [] rfl rfl

theorem delayList_cons (attempt k : Nat) :
    base_delay * 2 ^ attempt
        :: (List.range k).map (fun i => base_delay * 2 ^ (attempt + 1 + i))
      = (List.range (k + 1)).map (fun i => base_delay * 2 ^ (attempt + i)) := by
  have h2 : (List.range k).map ((fun i => base_delay * 2 ^ (attempt + i)) ∘ Nat.succ)
      = (List.range k).map (fun i => base_delay * 2 ^ (attempt + 1 + i)) := by
    apply List.map_congr_left
    intro i hi
    simp only [Function.comp_apply]
    rw [show attempt + Nat.succ i = attempt + 1 + i by omega]
  rw [List.range_succ_eq_map, List.map_cons, List.map_map, h2]
  simp

theorem retryLoop_ok {behavior : Nat → AgentOutcome} {m : Nat → String} :
    ∀ (k attempt remaining : Nat),
      attempt + remaining = max_retries →
      k < remaining →
      (∀ i, i < k → behavior (attempt + i) = AgentOutcome.transientErr (m (attempt + i))) →
      behavior (attempt + k) = AgentOutcome.ok →
      retryLoop behavior remaining attempt =
        ((List.range k).map (fun i => base_delay * 2 ^ (attempt + i)), Except.ok ()) := by
  intro k
  induction k with
  | zero =>
    intro attempt remaining hsum hk htrans hok
    obtain ⟨r, rfl⟩ : ∃ r, remaining = r + 1 := ⟨remaining - 1, by omega⟩
    rw [Nat.add_zero] at hok
    simp only [retryLoop, hok, List.range_zero, List.map_nil]
  | succ k ih =>
    intro attempt remaining hsum hk htrans hok
    obtain ⟨r, rfl⟩ : ∃ r, remaining = r + 1 := ⟨remaining - 1, by omega⟩
    have h0 : behavior attempt = AgentOutcome.transientErr (m attempt) := by
      have := htrans 0 (Nat.succ_pos k)
      simpa using this
    have hne : attempt ≠ max_retries - 1 := by
      have hmr : max_retries = 20 := rfl
      omega
    have ihh := ih (attempt + 1) r (by omega) (by omega)
      (fun i hi => by
        rw [show attempt + 1 + i = attempt + (i + 1) by omega]
        exact htrans (i + 1) (by omega))
      (by rw [show attempt + 1 + k = attempt + (k + 1) by omega]; exact hok)
    simp only [retryLoop, h0, if_neg hne, ihh]
    rw [← delayList_cons attempt k]

theorem retryLoop_exhaust {behavior : Nat → AgentOutcome} {m : Nat → String} :
    ∀ (remaining attempt : Nat),
      attempt + remaining = max_retries →
      0 < remaining →
      (∀ i, i < max_retries → behavior i = AgentOutcome.transientErr (m i)) →
      retryLoop behavior remaining attempt =
        ((List.range (remaining - 1)).map (fun i => base_delay * 2 ^ (attempt + i)),
         Except.error (RetryError.fatal
           ("Max retries (" ++ toString max_retries ++ ") exceeded. Last error: "
             ++ m (max_retries - 1)))) := by
  intro remaining
  induction remaining with
  | zero =>
    intro attempt hsum h0 htrans
    omega
  | succ r ih =>
    intro attempt hsum _ htrans
    have hb : behavior attempt = AgentOutcome.transientErr (m attempt) := by
      apply htrans
      have hmr : max_retries = 20 := rfl
      omega
    by_cases hlast : attempt = max_retries - 1
    · have hr : r = 0 := by
        have hmr : max_retries = 20 := rfl
        omega
      subst hr
      simp only [retryLoop, hb, if_pos hlast]
      rw [hlast]
      simp
    · have hr : 0 < r := by
        have hmr : max_retries = 20 := rfl
        omega
      have ihh := ih (attempt + 1) (by omega) hr htrans
      simp only [retryLoop, hb, if_neg hlast, ihh]
      obtain ⟨r2, rfl⟩ : ∃ r2, r = r2 + 1 := ⟨r - 1, by omega⟩
      simp only [Nat.add_sub_cancel]
      rw [← delayList_cons attempt r2]

/-- Claim C2: an operation failing transiently on exactly the first k < 20
attempts and then succeeding causes exactly k backoff sleeps of 1, 2, 4, …,
2^(k-1) seconds and a successful return; 20 consecutive transient failures
raise the fatal error embedding the last observed error. -/
theorem C2_retry_backoff (k : Nat) (beh1 beh2 : Nat → AgentOutcome)
    (m1 m2 : Nat → String)
    (hk : k < 20)
    (h1 : ∀ i, i < k → beh1 i = AgentOutcome.transientErr (m1 i))
    (hok : beh1 k = AgentOutcome.ok)
    (h2 : ∀ i, i < 20 → beh2 i = AgentOutcome.transientErr (m2 i)) :
    run_agent_with_retry beh1 = ((List.range k).map (fun i => 2 ^ i), Except.ok ())
    ∧ run_agent_with_retry beh2 =
        ((List.range 19).map (fun i => 2 ^ i),
         Except.error (RetryError.fatal
           ("Max retries (20) exceeded. Last error: " ++ m2 19))) := by
  have hnorm : ∀ n : Nat, (List.range n).map (fun i => base_delay * 2 ^ (0 + i))
      = (List.range n).map (fun i => 2 ^ i) := by
    intro n
    apply List.map_congr_left
    intro i hi
    simp [base_delay]
  constructor
  · rw [run_agent_with_retry,
      retryLoop_ok (m := m1) k 0 max_retries rfl hk
        (fun i hi => by simpa using h1 i hi) (by simpa using hok),
      hnorm k]
  · rw [run_agent_with_retry,
      retryLoop_exhaust (m := m2) max_retries 0 rfl (by decide)
        (fun i hi => h2 i hi),
      show max_retries - 1 = 19 from rfl, hnorm 19,
      show ("Max retries (" ++ toString max_retries ++ ") exceeded. Last error: ")
          = "Max retries (20) exceeded. Last error: " from rfl]

/-- Witness for C2: two transient failures then success sleeps 1 s and 2 s;
twenty consecutive transient failures raise the fatal error. -/
theorem C2_witness :
    run_agent_with_retry
        (fun i => if i < 2 then AgentOutcome.transientErr "boom" else AgentOutcome.ok)
      = ([1, 2], Except.ok ())
    ∧ run_agent_with_retry (fun _ => AgentOutcome.transientErr "boom")
      = ((List.range 19).map (fun i => 2 ^ i),
         Except.error (RetryError.fatal
           "Max retries (20) exceeded. Last error: boom")) := by
  have h := C2_retry_backoff 2
    (fun i => if i < 2 then AgentOutcome.transientErr "boom" else AgentOutcome.ok)
    (fun _ => AgentOutcome.transientErr "boom")
    (fun _ => "boom") (fun _ => "boom")
    (by decide)
    (fun i hi => by simp [hi])
    (by simp)
    (fun i hi => rfl)
  constructor
  · rw [h.1]
    rfl
  · rw [h.2]
    rfl

/-- Claim C9: an error not classified as transient on the first attempt
propagates immediately, with zero backoff sleeps and zero further attempts. -/
theorem C9_nontransient_propagates (behavior : Nat → AgentOutcome) (msg : String)
    (h : behavior 0 = AgentOutcome.otherErr msg) :
    run_agent_with_retry behavior = ([], Except.error (RetryError.propagated msg)) := by
  show retryLoop behavior (19 + 1) 0 = _
  simp only [retryLoop, h]

/-- Witness for C9 at a concrete non-transient failure. -/
theorem C9_witness :
    run_agent_with_retry (fun _ => AgentOutcome.otherErr "bad request")
      = ([], Except.error (RetryError.propagated "bad request")) :=
  C9_nontransient_propagates (fun _ => AgentOutcome.otherErr "bad request")
    "bad request" rfl

theorem impl_stage_run_eq (store : MemStore) (b : String)
    (hreq : store.implementation_requested ≠ []) :
    run_implementation_stage store b =
      { skipped := false
        sessions := store.tasks.enum.map (fun p =>
          { checkpointId := p.1
            prompt :=
              { plan := store.plan
                key_facts := store.key_facts
                key_snippets := store.key_snippets
                task := p.2
                related_files := store.related_files
                base_task := b } }) } := by
  have hgate : is_stage_requested store "implementation" = true := by
    unfold is_stage_requested
    rw [if_pos rfl]
    simpa using List.length_pos.mpr hreq
  unfold run_implementation_stage
  rw [if_neg (by simp [hgate])]

/-- Claim C4: for a task list of size N held in the store under `tasks` when
implementation was requested, the Implementation stage constructs exactly N
fresh, independent sessions, one per task in original order, and session i's
prompt carries the plan, key facts, key snippets, related files, base task,
and task i's own description only — never another task's description. -/
theorem C4_impl_isolation (store : MemStore) (base_task : String)
    (hreq : store.implementation_requested ≠ []) :
    (run_implementation_stage store base_task).skipped = false
    ∧ (run_implementation_stage store base_task).sessions.length
        = store.tasks.length
    ∧ (∀ i (hi : i < store.tasks.length)
          (hi2 : i < (run_implementation_stage store base_task).sessions.length),
        (run_implementation_stage store base_task).sessions.get ⟨i, hi2⟩
          = { checkpointId := i
              prompt :=
                { plan := store.plan
                  key_facts := store.key_facts
                  key_snippets := store.key_snippets
                  task := store.tasks.get ⟨i, hi⟩
                  related_files := store.related_files
                  base_task := base_task } })
    ∧ (∀ i j
          (hi2 : i < (run_implementation_stage store base_task).sessions.length)
          (hj2 : j < (run_implementation_stage store base_task).sessions.length),
        i ≠ j →
        ((run_implementation_stage store base_task).sessions.get ⟨i, hi2⟩).checkpointId
          ≠ ((run_implementation_stage store base_task).sessions.get ⟨j, hj2⟩).checkpointId)
    ∧ (∀ i j (hi : i < store.tasks.length) (hj : j < store.tasks.length)
          (hi2 : i < (run_implementation_stage store base_task).sessions.length),
        i ≠ j → store.tasks.get ⟨j, hj⟩ ≠ store.tasks.get ⟨i, hi⟩ →
        ((run_implementation_stage store base_task).sessions.get ⟨i, hi2⟩).prompt.task
          ≠ store.tasks.get ⟨j, hj⟩) := by
  rw [impl_stage_run_eq store base_task hreq]
  refine ⟨rfl, ?_, ?_, ?_, ?_⟩
  · simp [List.enum_eq_enumFrom]
  · intro i hi hi2
    simp [List.get_eq_getElem, List.enum_eq_enumFrom, List.getElem_enumFrom]
  · intro i j hi2 hj2 hij
    simp only [List.get_eq_getElem, List.getElem_map, List.enum_eq_enumFrom,
      List.getElem_enumFrom]
    simpa using hij
  · intro i j hi hj hi2 hij hne
    simp only [List.get_eq_getElem, List.getElem_map, List.enum_eq_enumFrom,
      List.getElem_enumFrom]
    intro hcontra
    apply hne
    simp only [List.get_eq_getElem]
    simpa using hcontra.symm

/-- Witness for C4 at a concrete two-task store. -/
theorem C4_witness :
    List.length (ImplStageResult.sessions (run_implementation_stage
        (MemStore.mk false ["impl"] ["t1", "t2"] "p" "f" "s" ["a"]) "base")) = 2 := by
  have h := (C4_impl_isolation
    (MemStore.mk false ["impl"] ["t1", "t2"] "p" "f" "s" ["a"]) "base"
    (by simp)).2.1
  simpa using h

theorem informational_iff (store : MemStore) :
    is_informational_query store = false ↔
      (store.research_only = false ∧ store.implementation_requested ≠ []) := by
  unfold is_informational_query is_stage_requested
  rw [if_pos rfl]
  cases hro : store.research_only <;> simp [List.length_pos]

/-- Claim C5: the Planning and Implementation stages are constructed and run
iff `research_only` is false and the store records at least one
implementation request; a requested-but-empty implementation stage prints
the skip notice and constructs no session. -/
theorem C5_stage_gate (store : MemStore) (b : String) :
    ((StageTag.planning ∈ stagesRun store
        ∨ StageTag.implementation ∈ stagesRun store)
      ↔ (store.research_only = false ∧ store.implementation_requested ≠ []))
    ∧ (store.implementation_requested = [] →
        (run_implementation_stage store b).sessions = []
        ∧ (run_implementation_stage store b).skipped = true) := by
  constructor
  · unfold stagesRun
    cases hinf : is_informational_query store
    · rw [if_neg (by simp [hinf])]
      have hp := (informational_iff store).mp hinf
      simp [hp]
    · rw [if_pos (by simp [hinf])]
      have hnp : ¬ (store.research_only = false
          ∧ store.implementation_requested ≠ []) := by
        intro hp
        rw [(informational_iff store).mpr hp] at hinf
        cases hinf
      simp [hnp]
  · intro hreq
    have hgate : is_stage_requested store "implementation" = false := by
      unfold is_stage_requested
      rw [if_pos rfl]
      simp [hreq]
    unfold run_implementation_stage
    rw [if_pos hgate]
    exact ⟨rfl, rfl⟩

/-- Witness for C5: with no implementation request recorded, the
implementation stage constructs no session and logs the skip. -/
theorem C5_witness :
    (run_implementation_stage (MemStore.mk false [] [] "" "" "" []) "t").sessions = []
    ∧ (run_implementation_stage (MemStore.mk false [] [] "" "" "" []) "t").skipped = true :=
  (C5_stage_gate (MemStore.mk false [] [] "" "" "" []) "t").2 rfl

/-- Claim C7 (code bug): on its exception path, `ripgrep_search` returns a
record without the `success` field, although its docstring and the shared
tool contract promise `{output, return_code, success}`; the test and lint
tools do return all three fields on the same path. -/
theorem C7_ripgrep_success_field_missing :
    (ripgrep_search "foo" none
        (Except.error "Command 'rg' not found in PATH.")
        (Except.error "Command 'rg' not found in PATH.")
        (fun _ => "") (fun s => s)).success = none
    ∧ (run_test_command (Except.error "Command 'rg' not found in PATH.")
        (fun _ => "") (fun s => s)).success = some false
    ∧ (run_lint_command (some "flake8 x.py") (Except.error "boom")
        (fun _ => "") (fun s => s)).success = some false :=
  ⟨rfl, rfl, rfl⟩

/-- Claim C10: `run_test_command` and `run_lint_command` never propagate an
exception raised while delegating to the capture engine; every such error
is returned as `{output: message, return_code: 1, success: false}`. -/
theorem C10_tools_catch_all (msg cmdline : String)
    (dec : List Nat → String) (trunc : String → String) :
    run_test_command (Except.error msg) dec trunc
      = { output := msg, return_code := 1, success := some false }
    ∧ run_lint_command (some cmdline) (Except.error msg) dec trunc
      = { output := msg, return_code := 1, success := some false } :=
  ⟨rfl, rfl⟩

/-- Claim C8 counterexample: a missing required model for a non-default
provider terminates the process with argparse's exit status 2, not 1 as the
claim states. -/
theorem C8_counterexample :
    main_exit_code "openai" none "openai" none true (some "task") RunOutcome.normal = 2
    ∧ (2 : Nat) ≠ 1 :=
  ⟨rfl, by decide⟩

/-- Claim C8 amended: exit 0 on normal completion and on the completion
signal; exit 1 on a missing task description and on an unrecovered fatal
error (including retry exhaustion); a missing required model for a
non-default provider exits with argparse's status 2. -/
theorem C8_exit_codes (model : Option String) (task fmsg : String)
    (provider : String) (outcome : RunOutcome) (hp : provider ≠ "anthropic") :
    main_exit_code "anthropic" model "openai" none true (some task) RunOutcome.normal = 0
    ∧ main_exit_code "anthropic" model "openai" none true (some task) RunOutcome.completed = 0
    ∧ main_exit_code "anthropic" model "openai" none true none outcome = 1
    ∧ main_exit_code "anthropic" model "openai" none true (some task)
        (RunOutcome.fatal fmsg) = 1
    ∧ main_exit_code provider none "openai" none true (some task) outcome = 2 := by
  refine ⟨rfl, rfl, rfl, rfl, ?_⟩
  unfold main_exit_code parse_arguments
  rw [if_neg hp]

/-- Witness for C8 amended at concrete inputs. -/
theorem C8_witness :
    main_exit_code "anthropic" none "openai" none true (some "t") RunOutcome.normal = 0
    ∧ main_exit_code "openai" none "openai" none true (some "t") RunOutcome.normal = 2 :=
  ⟨(C8_exit_codes none "t" "m" "openai" RunOutcome.normal (by decide)).1,
   (C8_exit_codes none "t" "m" "openai" RunOutcome.normal (by decide)).2.2.2.2⟩

end RaAid
